import Mathlib

/-!
Shallow embedding of the CyberisAI "AI Safety Detection System".

The frontend is embedded from the repository source:
src/frontend/src/App.jsx (camera capture, file upload, model switching)
and the DatabaseMonitor component (log polling and clearing).
The backend (backend/main.py) is referenced by the README and tests but is
absent from the repository snapshot, so its handlers are modelled from the
specification; every such definition carries a doc comment starting with
"Modelled from the spec:". All definitions are total Lean functions, which
embeds the requirement that no input crashes the server or the client.
-/

namespace CyberisAI

/-- Bounding box in pixel coordinates; JSON shape {x1, y1, x2, y2}
(spec §6, rendered by App.jsx as (x1, y1) to (x2, y2)). -/
structure Box where
  x1 : Int
  y1 : Int
  x2 : Int
  y2 : Int
deriving DecidableEq

/-- One detection; JSON shape {class, confidence, box} (spec §6). The JSON
field named class is called class_label here, after the spec data model §3.
Confidence is a rational number standing for the float in [0,1]. -/
structure Detection where
  class_label : String
  confidence : ℚ
  box : Box
deriving DecidableEq

/-- Validity of a detection, as stated in spec §3 and §8: confidence lies in
[0,1] and the bounding box satisfies x1 ≤ x2 and y1 ≤ y2. -/
def Detection.Valid (d : Detection) : Prop :=
  0 ≤ d.confidence ∧ d.confidence ≤ 1 ∧ d.box.x1 ≤ d.box.x2 ∧ d.box.y1 ≤ d.box.y2

instance (d : Detection) : Decidable d.Valid := by
  unfold Detection.Valid
  infer_instance

/-- JavaScript truthiness of an optional string field: an absent field and
the empty string are falsy, any other string is truthy. This embeds the
checks if (response.data.error) and the ternary on response.data.image
in App.jsx. -/
def strTruthy : Option String → Bool
  | none => false
  | some s => s != ""

/-- Body of a /detect response as the client reads it:
{detections: [...], image?: base64, error?: string} (spec §6). Optional
fields are Option so an absent field is representable. -/
structure DetectResponseData where
  error : Option String
  detections : Option (List Detection)
  image : Option String
deriving DecidableEq

/-- The React state of App.jsx that the embedded handlers touch:
currentModel, detectionResults, alertMessage, processedImage, isLoading. -/
structure ClientState where
  currentModel : String
  detectionResults : List Detection
  alertMessage : String
  processedImage : Option String
  isLoading : Bool
deriving DecidableEq

/-- App.jsx captureAndDetect (lines 78-114), resolved-response branch: the
state update performed after an HTTP-level successful POST /detect. The
finally block makes isLoading false on every path. -/
def captureAndDetectOnResponse (s : ClientState) (d : DetectResponseData) : ClientState :=
  if strTruthy d.error then
    { s with
      alertMessage := "Error: " ++ d.error.getD "",
      detectionResults := [],
      processedImage := none,
      isLoading := false }
  else
    let detections := d.detections.getD []
    let alerts := detections.map (fun x => x.class_label)
    { s with
      detectionResults := detections,
      processedImage :=
        if strTruthy d.image then some ("data:image/jpeg;base64," ++ d.image.getD "")
        else none,
      alertMessage :=
        if alerts.length > 0 then String.intercalate ", " alerts ++ " detected!"
        else "",
      isLoading := false }

/-- App.jsx captureAndDetect catch branch (lines 106-113): the state update
when the POST /detect promise rejects (connectivity failure). -/
def captureAndDetectOnFailure (s : ClientState) : ClientState :=
  { s with
    alertMessage := "Detection failed. Please try again.",
    detectionResults := [],
    processedImage := none,
    isLoading := false }

/-- App.jsx handleFileUpload (lines 118-161), resolved-response branch; the
source duplicates the body of the captureAndDetect response handling. -/
def handleFileUploadOnResponse (s : ClientState) (d : DetectResponseData) : ClientState :=
  if strTruthy d.error then
    { s with
      alertMessage := "Error: " ++ d.error.getD "",
      detectionResults := [],
      processedImage := none,
      isLoading := false }
  else
    let detections := d.detections.getD []
    let alerts := detections.map (fun x => x.class_label)
    { s with
      detectionResults := detections,
      processedImage :=
        if strTruthy d.image then some ("data:image/jpeg;base64," ++ d.image.getD "")
        else none,
      alertMessage :=
        if alerts.length > 0 then String.intercalate ", " alerts ++ " detected!"
        else "",
      isLoading := false }

/-- App.jsx handleFileUpload catch branch (lines 153-157). -/
def handleFileUploadOnFailure (s : ClientState) : ClientState :=
  { s with
    alertMessage := "Upload failed. Please try again.",
    detectionResults := [],
    processedImage := none,
    isLoading := false }

/-- App.jsx switchModel (lines 164-175), resolved branch: a successful POST
/models/switch sets currentModel to the requested model and posts a
confirmation message. -/
def switchModelOnSuccess (s : ClientState) (model : String) : ClientState :=
  { s with
    currentModel := model,
    alertMessage := "Switched to " ++ model ++ " detection model" }

/-- App.jsx switchModel catch branch (lines 171-174): a rejected POST
/models/switch only posts a failure message; currentModel is untouched. -/
def switchModelOnFailure (s : ClientState) : ClientState :=
  { s with alertMessage := "Failed to switch model" }

/-- One activity-log entry as the DatabaseMonitor component reads it:
timestamp, operation type, table, action text, duration in ms, status, and
an optional data payload (spec §3 ActivityLogEntry; DatabaseMonitor.js
field accesses log.type, log.table, log.action, log.timestamp,
log.duration, log.status, log.data). -/
structure LogEntry where
  timestamp : Nat
  operation_type : String
  table : String
  action : String
  duration : Option Nat
  status : String
  data : Option String
deriving DecidableEq

/-- The React state of DatabaseMonitor.js that the embedded handlers touch:
logs, isConnected, isExpanded. -/
structure MonitorState where
  logs : List LogEntry
  isConnected : Bool
  isExpanded : Bool
deriving DecidableEq

/-- Body of a GET /api/database/logs response as the client reads it:
{logs: [...]} with the field optional behind the JS fallback
response.data.logs || []. -/
structure LogsResponseData where
  logs : Option (List LogEntry)
deriving DecidableEq

/-- DatabaseMonitor.js fetchLogs (lines 20-29), resolved branch: replace the
log list with the fetched logs (empty on a missing field) and mark Live. -/
def fetchLogsOnSuccess (s : MonitorState) (d : LogsResponseData) : MonitorState :=
  { s with logs := d.logs.getD [], isConnected := true }

/-- DatabaseMonitor.js fetchLogs catch branch (lines 25-28): a failed fetch
only marks Offline; the log list is untouched. -/
def fetchLogsOnFailure (s : MonitorState) : MonitorState :=
  { s with isConnected := false }

/-- Outcome of one polling cycle: the GET resolved with a body, or the
promise rejected (connectivity failure). -/
inductive PollOutcome
  | success (d : LogsResponseData)
  | failure
deriving DecidableEq

/-- One polling cycle of DatabaseMonitor.js fetchLogs, dispatching on the
outcome of the GET. -/
def pollStep (s : MonitorState) : PollOutcome → MonitorState
  | .success d => fetchLogsOnSuccess s d
  | .failure => fetchLogsOnFailure s

/-- The polling loop set up by setInterval(fetchLogs, 2000): every outcome
in the sequence is processed in order; a failure does not stop the loop. -/
def pollRun (s : MonitorState) : List PollOutcome → MonitorState
  | [] => s
  | o :: os => pollRun (pollStep s o) os

/-- The fixed polling interval, the literal 2000 ms of
setInterval(fetchLogs, 2000) in DatabaseMonitor.js line 33. -/
def pollIntervalMs : Nat := 2000

/-- DatabaseMonitor.js clearLogs (lines 38-45), resolved branch: a
successful POST /api/database/logs/clear empties the displayed list. -/
def clearLogsOnSuccess (s : MonitorState) : MonitorState :=
  { s with logs := [] }

/-- DatabaseMonitor.js clearLogs catch branch (lines 42-44): a rejected
clear only logs to the console; the component state is unchanged. -/
def clearLogsOnFailure (s : MonitorState) : MonitorState :=
  s

/-- Modelled from the spec: backend/main.py is absent from the snapshot. A
decoded raster image (spec §4.2); the concrete pixel content is irrelevant
to the orchestration core, only decodability is. -/
structure Image where
  width : Nat
  height : Nat
  pixels : List Nat
deriving DecidableEq

/-- Modelled from the spec: result of one Detector Capability invocation
(spec §2, §4.2): an ordered detection list, or a capability-level failure
carrying a message (DetectionError, spec §7). -/
inductive DetectorResult
  | ok (dets : List Detection)
  | failure (msg : String)
deriving DecidableEq

/-- Modelled from the spec: the Detector Capability, an opaque external
function (image, model identifier) → detections (spec §2); the embedding
quantifies over it. -/
abbrev Capability : Type := Image → String → DetectorResult

/-- The detection list a DetectorResult contributes: its list on success,
the empty list on failure (spec §7: DetectionError is surfaced with empty
detections). -/
def detectorDets : DetectorResult → List Detection
  | .ok dets => dets
  | .failure _ => []

/-- Modelled from the spec: the Model Registry (spec §4.1), holding the set
of known model identifiers and the active one, plus the ActiveModelState
invariant that the active identifier is drawn from the registry. -/
structure Registry where
  models : List String
  activeModel : String
deriving DecidableEq

/-- Modelled from the spec: the backend error taxonomy (spec §7). -/
inductive ApiError
  | notFoundError
  | invalidImageError
  | detectionError (msg : String)
deriving DecidableEq

/-- Modelled from the spec: the HTTP status each error is surfaced with;
NotFoundError and InvalidImageError are 4xx (spec §7). -/
def statusCode : ApiError → Nat
  | .notFoundError => 404
  | .invalidImageError => 400
  | .detectionError _ => 500

/-- A status code in the 4xx class. -/
def is4xx (n : Nat) : Prop :=
  400 ≤ n ∧ n < 500

instance (n : Nat) : Decidable (is4xx n) := by
  unfold is4xx
  infer_instance

/-- Modelled from the spec: the Model Switch Handler (spec §4.3, §4.1
set_active): an identifier absent from the registry fails with
NotFoundError; a present one overwrites ActiveModelState. -/
def switchHandler (r : Registry) (identifier : String) : Except ApiError Registry :=
  if identifier ∈ r.models then
    Except.ok { r with activeModel := identifier }
  else
    Except.error ApiError.notFoundError

/-- Modelled from the spec: the registry state after a switch request — the
new registry on success, the old registry untouched on NotFoundError
(spec §7, §8). -/
def applySwitch (r : Registry) (identifier : String) : Registry :=
  match switchHandler r identifier with
  | Except.ok updated => updated
  | Except.error _ => r

/-- Body of the GET /models response: {current_model} (spec §6). -/
structure ModelsResponse where
  current_model : String
deriving DecidableEq

/-- Modelled from the spec: the GET /models handler reports the active
model identifier (spec §6). -/
def getModelsHandler (r : Registry) : ModelsResponse :=
  { current_model := r.activeModel }

/-- Body of a POST /detect response as the backend writes it (spec §6):
{detections, image?, error?} plus the HTTP status it is sent with. -/
structure DetectResponse where
  status : Nat
  detections : List Detection
  image : Option String
  error : Option String
deriving DecidableEq

/-- Modelled from the spec: the single-mode Detection Request Handler
(spec §4.2, §7). It validates that the payload decodes (InvalidImageError
as a 4xx with an error field otherwise), invokes the Detector Capability
once with the active model, returns its detections plus an optional
annotated image, and converts a capability failure into a DetectionError
response with an error field and empty detections. The decoder, capability
and annotator are parameters because they are external collaborators. -/
def detectSingle (decode : List Nat → Option Image) (cap : Capability)
    (annotate : Image → List Detection → Option String)
    (r : Registry) (bytes : List Nat) : DetectResponse :=
  match decode bytes with
  | none =>
    { status := statusCode ApiError.invalidImageError,
      detections := [],
      image := none,
      error := some "Invalid image payload" }
  | some img =>
    match cap img r.activeModel with
    | DetectorResult.ok dets =>
      { status := 200, detections := dets, image := annotate img dets, error := none }
    | DetectorResult.failure msg =>
      { status := 200, detections := [], image := none, error := some msg }

/-- How many times detectSingle invokes the Detector Capability on a given
payload: zero when the payload does not decode, exactly one otherwise —
inference failures are not retried (spec §4.2, §7). -/
def detectSingleCapCalls (decode : List Nat → Option Image) (bytes : List Nat) : Nat :=
  match decode bytes with
  | none => 0
  | some _ => 1

/-- A detection tagged with its source model identifier (spec §4.2 dual
mode). -/
structure TaggedDetection where
  model : String
  det : Detection
deriving DecidableEq

/-- Tag one detection with the model that produced it. -/
def tagDetection (model : String) (d : Detection) : TaggedDetection :=
  { model := model, det := d }

/-- Body of a POST /detect/both response (spec §6): detections tagged by
model, plus status and optional error. -/
structure DetectBothResponse where
  status : Nat
  detections : List TaggedDetection
  error : Option String
deriving DecidableEq

/-- Modelled from the spec: the dual-mode Detection Request Handler
(spec §4.2): after the same payload validation, it invokes the Detector
Capability once per registered model and concatenates the per-model
detection lists, tagging each detection with its source model identifier.
A per-model capability failure contributes the empty list, the same shape
DetectionError takes in single mode (spec §9 leaves the dual-mode schema a
design choice). -/
def detectBoth (decode : List Nat → Option Image) (cap : Capability)
    (r : Registry) (bytes : List Nat) : DetectBothResponse :=
  match decode bytes with
  | none =>
    { status := statusCode ApiError.invalidImageError,
      detections := [],
      error := some "Invalid image payload" }
  | some img =>
    { status := 200,
      detections :=
        r.models.flatMap (fun m => (detectorDets (cap img m)).map (tagDetection m)),
      error := none }

/-- Modelled from the spec: the external Activity Log Sink (spec §2, §3),
an append-only record exposed through the read/clear contract of §6. -/
structure LogSink where
  entries : List LogEntry
deriving DecidableEq

/-- Modelled from the spec: the GET /api/database/logs?limit=N read of the
log sink, returning at most limit entries (spec §6). -/
def logsGetHandler (s : LogSink) (limit : Nat) : List LogEntry :=
  s.entries.take limit

/-- Modelled from the spec: the POST /api/database/logs/clear operation on
the log sink (spec §6, §8). -/
def logsClearHandler (_s : LogSink) : LogSink :=
  { entries := [] }

/-- A concrete registry: the two models shipped by the repository README,
weapon active at startup (App.jsx initial state). -/
def exampleRegistry : Registry :=
  { models := ["weapon", "fire_smoke"], activeModel := "weapon" }

/-- A concrete decoder instance for witnesses: empty bytes are not a
decodable image, anything else decodes to a one-column image. -/
def exampleDecode : List Nat → Option Image
  | [] => none
  | bs => some { width := 1, height := bs.length, pixels := bs }

/-- A concrete detection for witnesses. -/
def exampleDetection : Detection :=
  { class_label := "fire",
    confidence := 9 / 10,
    box := { x1 := 1, y1 := 2, x2 := 3, y2 := 4 } }

/-- A concrete capability instance for witnesses: every model reports one
detection labelled with the model identifier. -/
def exampleCap : Capability :=
  fun _ m =>
    DetectorResult.ok
      [{ class_label := m,
         confidence := 9 / 10,
         box := { x1 := 0, y1 := 0, x2 := 4, y2 := 4 } }]

/-- A concrete annotator instance for witnesses: no annotated image. -/
def exampleAnnotate : Image → List Detection → Option String :=
  fun _ _ => none

/-- A concrete client state for witnesses, mirroring the App.jsx initial
useState values with a request in flight. -/
def exampleClientState : ClientState :=
  { currentModel := "weapon",
    detectionResults := [],
    alertMessage := "",
    processedImage := none,
    isLoading := true }

/-- A concrete /detect response body carrying an error field, for
witnesses. -/
def exampleErrResponse : DetectResponseData :=
  { error := some "model exploded",
    detections := some [exampleDetection],
    image := some "abc" }

/-- A concrete error-free /detect response body with one detection, for
witnesses. -/
def exampleOkResponse : DetectResponseData :=
  { error := none,
    detections := some [exampleDetection],
    image := none }

/-- Helper: on a decodable payload, the single-mode detections are exactly
what the capability reports for the active model. -/
theorem detectSingle_detections_eq (decode : List Nat → Option Image)
    (cap : Capability) (annotate : Image → List Detection → Option String)
    (r : Registry) (bytes : List Nat) (img : Image)
    (h : decode bytes = some img) :
    (detectSingle decode cap annotate r bytes).detections =
      detectorDets (cap img r.activeModel) := by
  simp only [detectSingle, h]
  cases cap img r.activeModel <;> rfl

/-- Helper: a switch to a registered identifier overwrites the active
model and nothing else. -/
theorem applySwitch_of_mem (r : Registry) (m : String) (h : m ∈ r.models) :
    applySwitch r m = { r with activeModel := m } := by
  unfold applySwitch switchHandler
  simp [h]

/-- Helper: a string extended with the alert suffix of App.jsx is never
empty. -/
theorem append_detected_ne_empty (a : String) : a ++ " detected!" ≠ "" := by
  intro hcontra
  have hd := congrArg String.data hcontra
  rw [String.data_append] at hd
  have h2 := (List.append_eq_nil.mp hd).2
  exact absurd h2 (by decide)

/-- C1: a /detect response carrying an error field carries empty
detections, and the client, on any detect response whose error field is
set (to the non-empty message the backend attaches), displays the error
message, shows an empty detection list, and shows no processed image, on
both the camera-capture path and the file-upload path. -/
theorem C1_error_excludes_detections
    (decode : List Nat → Option Image) (cap : Capability)
    (annotate : Image → List Detection → Option String)
    (r : Registry) (bytes : List Nat)
    (s : ClientState) (d : DetectResponseData) (msg : String)
    (hset : d.error = some msg) (hmsg : msg ≠ "") :
    ((detectSingle decode cap annotate r bytes).error.isSome = true →
      (detectSingle decode cap annotate r bytes).detections = []) ∧
    (captureAndDetectOnResponse s d).alertMessage = "Error: " ++ msg ∧
    (captureAndDetectOnResponse s d).detectionResults = [] ∧
    (captureAndDetectOnResponse s d).processedImage = none ∧
    (handleFileUploadOnResponse s d).alertMessage = "Error: " ++ msg ∧
    (handleFileUploadOnResponse s d).detectionResults = [] ∧
    (handleFileUploadOnResponse s d).processedImage = none := by
  have htr : strTruthy d.error = true := by
    rw [hset]
    simp [strTruthy, hmsg]
  refine ⟨?_, ?_, ?_, ?_, ?_, ?_, ?_⟩
  · intro herr
    simp only [detectSingle] at herr ⊢
    cases hdec : decode bytes with
    | none => simp [hdec]
    | some img =>
      cases hcap : cap img r.activeModel with
      | ok dets => simp [hdec, hcap] at herr
      | failure m => simp [hdec, hcap]
  all_goals
    rw [hset] at htr
    simp [captureAndDetectOnResponse, handleFileUploadOnResponse, hset, htr]

/-- Witness for C1 at a concrete error response. -/
theorem C1_error_excludes_detections_w :
    (captureAndDetectOnResponse exampleClientState exampleErrResponse).detectionResults = [] ∧
    (handleFileUploadOnResponse exampleClientState exampleErrResponse).processedImage = none :=
  ⟨(C1_error_excludes_detections exampleDecode exampleCap exampleAnnotate exampleRegistry []
      exampleClientState exampleErrResponse "model exploded" rfl (by decide)).2.2.1,
   (C1_error_excludes_detections exampleDecode exampleCap exampleAnnotate exampleRegistry []
      exampleClientState exampleErrResponse "model exploded" rfl (by decide)).2.2.2.2.2.2⟩

/-- C2: switching to an identifier absent from the registry fails with
NotFoundError (a 4xx), leaves the active model unchanged, and on the
client a rejected switch leaves currentModel unchanged and posts the
failure message. -/
theorem C2_unknown_model_not_found (r : Registry) (m : String)
    (h : m ∉ r.models) :
    switchHandler r m = Except.error ApiError.notFoundError ∧
    is4xx (statusCode ApiError.notFoundError) ∧
    applySwitch r m = r ∧
    (getModelsHandler (applySwitch r m)).current_model = r.activeModel ∧
    (∀ s : ClientState,
      (switchModelOnFailure s).currentModel = s.currentModel ∧
      (switchModelOnFailure s).alertMessage = "Failed to switch model") := by
  have hsw : switchHandler r m = Except.error ApiError.notFoundError := by
    unfold switchHandler
    simp [h]
  have happ : applySwitch r m = r := by
    unfold applySwitch
    rw [hsw]
  exact ⟨hsw, by decide, happ, by rw [happ]; rfl, fun s => ⟨rfl, rfl⟩⟩

/-- Witness for C2 at the identifier unknown_model against the concrete
registry. -/
theorem C2_unknown_model_not_found_w :
    switchHandler exampleRegistry "unknown_model" = Except.error ApiError.notFoundError ∧
    applySwitch exampleRegistry "unknown_model" = exampleRegistry :=
  ⟨(C2_unknown_model_not_found exampleRegistry "unknown_model" (by decide)).1,
   (C2_unknown_model_not_found exampleRegistry "unknown_model" (by decide)).2.2.1⟩

/-- C3: a switch to a registered identifier makes it the active model:
GET /models then reports it, subsequent single-mode detect calls invoke
the capability with it, and a resolved client switch sets currentModel to
exactly it. -/
theorem C3_switch_success_sets_active (r : Registry) (m : String)
    (h : m ∈ r.models) :
    (applySwitch r m).activeModel = m ∧
    (getModelsHandler (applySwitch r m)).current_model = m ∧
    (∀ (decode : List Nat → Option Image) (cap : Capability)
       (annotate : Image → List Detection → Option String)
       (bytes : List Nat) (img : Image),
       decode bytes = some img →
       (detectSingle decode cap annotate (applySwitch r m) bytes).detections =
         detectorDets (cap img m)) ∧
    (∀ s : ClientState, (switchModelOnSuccess s m).currentModel = m) := by
  have happ := applySwitch_of_mem r m h
  refine ⟨by rw [happ], by rw [happ]; rfl, ?_, fun s => rfl⟩
  intro decode cap annotate bytes img hdec
  rw [detectSingle_detections_eq decode cap annotate (applySwitch r m) bytes img hdec, happ]

/-- Witness for C3 at the identifier fire_smoke against the concrete
registry. -/
theorem C3_switch_success_sets_active_w :
    (applySwitch exampleRegistry "fire_smoke").activeModel = "fire_smoke" ∧
    (getModelsHandler (applySwitch exampleRegistry "fire_smoke")).current_model = "fire_smoke" :=
  ⟨(C3_switch_success_sets_active exampleRegistry "fire_smoke" (by decide)).1,
   (C3_switch_success_sets_active exampleRegistry "fire_smoke" (by decide)).2.1⟩

/-- C4: on a decodable image, the dual-mode detection list is exactly the
concatenation, over the registered models, of the single-mode detection
lists obtained with each model active on the same image, each detection
tagged with its source model identifier. -/
theorem C4_detect_both_union (decode : List Nat → Option Image)
    (cap : Capability) (annotate : Image → List Detection → Option String)
    (r : Registry) (bytes : List Nat) (img : Image)
    (h : decode bytes = some img) :
    (detectBoth decode cap r bytes).detections =
      r.models.flatMap (fun m =>
        ((detectSingle decode cap annotate { r with activeModel := m } bytes).detections).map
          (tagDetection m)) := by
  simp only [detectBoth, h]
  congr 1
  funext m
  rw [detectSingle_detections_eq decode cap annotate { r with activeModel := m } bytes img h]

/-- Witness for C4 at a concrete payload, capability and registry. -/
theorem C4_detect_both_union_w :
    (detectBoth exampleDecode exampleCap exampleRegistry [7]).detections =
      exampleRegistry.models.flatMap (fun m =>
        ((detectSingle exampleDecode exampleCap exampleAnnotate
            { exampleRegistry with activeModel := m } [7]).detections).map
          (tagDetection m)) :=
  C4_detect_both_union exampleDecode exampleCap exampleAnnotate exampleRegistry [7]
    { width := 1, height := 1, pixels := [7] } rfl

/-- C5: whenever the Detector Capability only reports detections with
confidence in [0,1] and x1 ≤ x2, y1 ≤ y2 (the shape the spec fixes for
the external capability), every detection returned by detect — single or
dual mode, any registry and payload — satisfies the same bounds. -/
theorem C5_detections_valid (decode : List Nat → Option Image)
    (cap : Capability) (annotate : Image → List Detection → Option String)
    (r : Registry) (bytes : List Nat)
    (hcap : ∀ (img : Image) (m : String),
      ∀ d ∈ detectorDets (cap img m), d.Valid) :
    (∀ d ∈ (detectSingle decode cap annotate r bytes).detections, d.Valid) ∧
    (∀ td ∈ (detectBoth decode cap r bytes).detections, td.det.Valid) := by
  constructor
  · intro d hd
    cases hdec : decode bytes with
    | none => simp [detectSingle, hdec] at hd
    | some img =>
      rw [detectSingle_detections_eq decode cap annotate r bytes img hdec] at hd
      exact hcap img r.activeModel d hd
  · intro td htd
    cases hdec : decode bytes with
    | none => simp [detectBoth, hdec] at htd
    | some img =>
      simp only [detectBoth, hdec, List.mem_flatMap, List.mem_map] at htd
      obtain ⟨m, hm, d, hd, rfl⟩ := htd
      exact hcap img m d hd

/-- Witness for C5 at a concrete capability whose detections satisfy the
bounds. -/
theorem C5_detections_valid_w :
    Detection.Valid
      { class_label := "weapon",
        confidence := 9 / 10,
        box := { x1 := 0, y1 := 0, x2 := 4, y2 := 4 } } :=
  (C5_detections_valid exampleDecode exampleCap exampleAnnotate exampleRegistry [7]
    (by
      intro img m d hd
      simp only [exampleCap, detectorDets, List.mem_singleton] at hd
      subst hd
      exact ⟨by norm_num, by norm_num, by norm_num, by norm_num⟩)).1
    { class_label := "weapon",
      confidence := 9 / 10,
      box := { x1 := 0, y1 := 0, x2 := 4, y2 := 4 } }
    (by simp [detectSingle, exampleDecode, exampleCap, exampleRegistry])

/-- C6: a payload that does not decode to a raster image is answered with
the InvalidImageError status (a 4xx) and an error field, carries empty
detections, and the capability is never invoked for it (so the failure is
not retried); both detect handlers are total functions, so no payload
crashes the server. -/
theorem C6_invalid_image_rejected (decode : List Nat → Option Image)
    (cap : Capability) (annotate : Image → List Detection → Option String)
    (r : Registry) (bytes : List Nat) (h : decode bytes = none) :
    (detectSingle decode cap annotate r bytes).status = statusCode ApiError.invalidImageError ∧
    is4xx (detectSingle decode cap annotate r bytes).status ∧
    (detectSingle decode cap annotate r bytes).error.isSome = true ∧
    (detectSingle decode cap annotate r bytes).detections = [] ∧
    detectSingleCapCalls decode bytes = 0 ∧
    (detectBoth decode cap r bytes).error.isSome = true ∧
    (detectBoth decode cap r bytes).detections = [] := by
  refine ⟨?_, ?_, ?_, ?_, ?_, ?_, ?_⟩ <;>
    simp [detectSingle, detectBoth, detectSingleCapCalls, h, is4xx, statusCode]

/-- Witness for C6 at the empty payload, which the concrete decoder
rejects. -/
theorem C6_invalid_image_rejected_w :
    (detectSingle exampleDecode exampleCap exampleAnnotate exampleRegistry []).detections = [] ∧
    detectSingleCapCalls exampleDecode [] = 0 :=
  ⟨(C6_invalid_image_rejected exampleDecode exampleCap exampleAnnotate exampleRegistry [] rfl).2.2.2.1,
   (C6_invalid_image_rejected exampleDecode exampleCap exampleAnnotate exampleRegistry [] rfl).2.2.2.2.1⟩

/-- C7: a failed poll leaves the log list untouched and marks the monitor
offline; a later successful poll marks it live and replaces the list with
the fetched logs; the loop consumes every outcome (a failure does not stop
it) on its fixed 2000 ms interval; the poll step is a total function, so
no outcome crashes the client. -/
theorem C7_monitor_offline_resilience (s : MonitorState) :
    (pollStep s PollOutcome.failure).logs = s.logs ∧
    (pollStep s PollOutcome.failure).isConnected = false ∧
    (∀ d : LogsResponseData,
      (pollStep s (PollOutcome.success d)).isConnected = true ∧
      (pollStep s (PollOutcome.success d)).logs = d.logs.getD []) ∧
    (∀ (o : PollOutcome) (os : List PollOutcome),
      pollRun s (o :: os) = pollRun (pollStep s o) os) ∧
    pollIntervalMs = 2000 :=
  ⟨rfl, rfl, fun _ => ⟨rfl, rfl⟩, fun _ _ => rfl, rfl⟩

/-- C8: after a clear of the log sink any read returns the empty list; on
the client a resolved clear empties the displayed list and a rejected
clear leaves the component state unchanged. -/
theorem C8_clear_logs_empties (sink : LogSink) (limit : Nat) (s : MonitorState) :
    logsGetHandler (logsClearHandler sink) limit = [] ∧
    (clearLogsOnSuccess s).logs = [] ∧
    clearLogsOnFailure s = s := by
  refine ⟨?_, rfl, rfl⟩
  simp [logsGetHandler, logsClearHandler]

/-- C9: switching twice to the same registered identifier leaves the
registry state identical to switching once. -/
theorem C9_switch_idempotent (r : Registry) (X : String) (h : X ∈ r.models) :
    applySwitch (applySwitch r X) X = applySwitch r X := by
  rw [applySwitch_of_mem r X h, applySwitch_of_mem { r with activeModel := X } X h]

/-- Witness for C9 at the identifier weapon against the concrete
registry. -/
theorem C9_switch_idempotent_w :
    applySwitch (applySwitch exampleRegistry "weapon") "weapon" =
      applySwitch exampleRegistry "weapon" :=
  C9_switch_idempotent exampleRegistry "weapon" (by decide)

/-- C10: after an error-free detect response both client paths perform the
same update, the alert message is non-empty exactly when the resulting
detection list is non-empty, a non-empty list yields the comma-joined
class labels followed by the detected suffix, and an empty list clears the
alert. -/
theorem C10_alert_invariant (s : ClientState) (d : DetectResponseData)
    (h : strTruthy d.error = false) :
    captureAndDetectOnResponse s d = handleFileUploadOnResponse s d ∧
    ((captureAndDetectOnResponse s d).alertMessage ≠ "" ↔
      (captureAndDetectOnResponse s d).detectionResults ≠ []) ∧
    ((captureAndDetectOnResponse s d).detectionResults ≠ [] →
      (captureAndDetectOnResponse s d).alertMessage =
        String.intercalate ", "
          ((captureAndDetectOnResponse s d).detectionResults.map (fun x => x.class_label)) ++
          " detected!") ∧
    ((captureAndDetectOnResponse s d).detectionResults = [] →
      (captureAndDetectOnResponse s d).alertMessage = "") := by
  refine ⟨rfl, ?_, ?_, ?_⟩ <;>
    rcases hdet : d.detections.getD [] with _ | ⟨x, xs⟩ <;>
    simp [captureAndDetectOnResponse, h, hdet, append_detected_ne_empty]

/-- Witness for C10 at a concrete error-free response with one
detection. -/
theorem C10_alert_invariant_w :
    (captureAndDetectOnResponse exampleClientState exampleOkResponse).alertMessage ≠ "" ↔
    (captureAndDetectOnResponse exampleClientState exampleOkResponse).detectionResults ≠ [] :=
  (C10_alert_invariant exampleClientState exampleOkResponse rfl).2.1

end CyberisAI
